import Mathlib

/-!
Shallow embedding of the `web_idl` draft-to-frozen construction kernel of the
Blink bindings generator, centred on `callback_function.py`
(`CallbackFunction.IR.__init__`, `CallbackFunction.__init__`,
`CallbackFunction.is_callback_function`).

Python objects share composite values by reference, and the properties of
interest are about aliasing between a mutable draft IR node and the frozen
declaration produced from it.  We therefore model composite values
(annotation tables, argument lists, generator-hint tables, component sets,
debug-info records) as cells of an explicit `Store`, addressed by `Nat`
references.  "Mutating a draft's table" overwrites the cell the draft
references; "deep copy" (`make_copy`) allocates fresh cells with equal
contents.  Scalar fields (identifier, kind tag, return type) live directly
in the records.

The modules `ir_map.py`, `function_like.py`, `make_copy.py`,
`composition_parts.py` and `code_generator_info.py` are imported by the
source file but are not part of the repository snapshot; the definitions
that stand for them are modelled from the spec and say so in their doc
comments.
-/

/-- Entry of an extended-attribute (annotation) table: key and value. -/
abbrev AttrEntry := String × String

/-- Entry of a code-generator-info (generator-hint) table: key and value. -/
abbrev HintEntry := String × String

/-- Modelled from the spec: the closed enumeration of declaration kinds
(`IRMap.IR.Kind` in `ir_map.py`, which is not in the snapshot); the source
file references `IRMap.IR.Kind.CALLBACK_FUNCTION`. -/
inductive IRMap.IR.Kind where
  | CALLBACK_FUNCTION
  | INTERFACE
  | DICTIONARY
  | ENUMERATION
  | TYPEDEF
  | NAMESPACE
deriving DecidableEq, Repr

/-- Minimal closed set of declared types appearing in the payloads. -/
inductive IdlType where
  | any
  | boolean
  | undefined
  | object
deriving DecidableEq, Repr

/-- Modelled from the spec: an argument record of a callable payload —
name, declared type, optional flag, default value (if any), variadic flag. -/
structure Argument where
  name : String
  type : IdlType
  optional : Bool
  defaultValue : Option String
  variadic : Bool
deriving DecidableEq, Repr

/-- Heap of composite (reference-shared) values.  A draft or frozen
declaration holds `Nat` references into this store; mutation updates a cell
in place, deep copy allocates fresh cells. -/
structure Store where
  attrTables : List (List AttrEntry)
  argLists : List (List Argument)
  hintTables : List (List HintEntry)
  componentSets : List (List String)
  debugInfos : List String
deriving DecidableEq, Repr

/-- The store with no allocated cells. -/
def emptyStore : Store :=
  { attrTables := [], argLists := [], hintTables := [], componentSets := [], debugInfos := [] }

/-- Read the annotation (extended-attribute) table at a reference. -/
def Store.getAttr (s : Store) (r : Nat) : List AttrEntry := s.attrTables.getD r []

/-- Read the argument list at a reference. -/
def Store.getArg (s : Store) (r : Nat) : List Argument := s.argLists.getD r []

/-- Read the generator-hint table at a reference. -/
def Store.getHint (s : Store) (r : Nat) : List HintEntry := s.hintTables.getD r []

/-- Read the component set at a reference. -/
def Store.getComp (s : Store) (r : Nat) : List String := s.componentSets.getD r []

/-- Read the debug-info record at a reference. -/
def Store.getDbg (s : Store) (r : Nat) : String := s.debugInfos.getD r ""

/-- Overwrite, in place, the annotation table at a reference. -/
def Store.setAttr (s : Store) (r : Nat) (t : List AttrEntry) : Store :=
  { s with attrTables := s.attrTables.set r t }

/-- Overwrite, in place, the argument list at a reference. -/
def Store.setArg (s : Store) (r : Nat) (t : List Argument) : Store :=
  { s with argLists := s.argLists.set r t }

/-- Overwrite, in place, the generator-hint table at a reference. -/
def Store.setHint (s : Store) (r : Nat) (t : List HintEntry) : Store :=
  { s with hintTables := s.hintTables.set r t }

/-- The draft IR node.  `IRMap.IR` (in `ir_map.py`, not in the snapshot)
carries identifier and kind tag; `FunctionLike.IR` adds the callable
payload (argument list, return type); the four capability traits add the
annotation table, generator-hint table, component set and debug info.
`CallbackFunction.IR.__init__` initialises exactly these fields, so the
flattened record is the draft's state; composite fields are references
into the `Store`. -/
structure IRMap.IR where
  identifier : String
  kind : IRMap.IR.Kind
  arguments : Nat
  return_type : IdlType
  extended_attributes : Nat
  code_generator_info : Nat
  components : Nat
  debug_info : Nat
deriving DecidableEq, Repr

/-- The nested class `CallbackFunction.IR` specialises `IRMap.IR` only by
what its constructor stores, which the flattened record already carries. -/
abbrev CallbackFunction.IR := IRMap.IR

/-- An argument that may legally follow an optional one: optional itself,
or defaulted, or the trailing variadic argument. -/
def argIsOptionalLike (a : Argument) : Bool :=
  a.optional || a.defaultValue.isSome || a.variadic

/-- Modelled from the spec (`function_like.py` is not in the snapshot):
no optional argument may precede a required one — once an omissible
argument occurs, every later argument must be omissible. -/
def noOptBeforeReq : List Argument → Bool
  | [] => true
  | a :: rest =>
      if a.optional || a.defaultValue.isSome then rest.all argIsOptionalLike
      else noOptBeforeReq rest

/-- Modelled from the spec: at most one variadic argument, which must be
last. -/
def variadicLastOnly : List Argument → Bool
  | [] => true
  | a :: rest => (rest.isEmpty || !a.variadic) && variadicLastOnly rest

/-- The argument-order invariant of a callable payload. -/
def argOrderOk (args : List Argument) : Bool :=
  noOptBeforeReq args && variadicLastOnly args

/-- Errors raised while constructing a draft node. -/
inductive ConstructError where
  | MalformedArgumentOrder
deriving DecidableEq, Repr

/-- `CallbackFunction.IR.__init__` (source lines 22–42): fixes the kind tag
to `CALLBACK_FUNCTION`, stores the callable payload, and initialises the
four capability traits, each defaulting to its neutral/empty instance when
the optional raw value is absent.  The argument-order validation of the
`FunctionLike` payload is modelled from the spec (a violation fails the
construction of the owning draft node). -/
def CallbackFunction.IR.init (identifier : String) (arguments : List Argument)
    (return_type : IdlType)
    (extended_attributes : Option (List AttrEntry))
    (code_generator_info : Option (List HintEntry))
    (component : Option String)
    (debug_info : Option String)
    (s : Store) : Except ConstructError (IRMap.IR × Store) :=
  if argOrderOk arguments then
    Except.ok
      ({ identifier := identifier,
         kind := IRMap.IR.Kind.CALLBACK_FUNCTION,
         arguments := s.argLists.length,
         return_type := return_type,
         extended_attributes := s.attrTables.length,
         code_generator_info := s.hintTables.length,
         components := s.componentSets.length,
         debug_info := s.debugInfos.length },
       { s with argLists := s.argLists ++ [arguments],
                attrTables := s.attrTables ++ [extended_attributes.getD []],
                hintTables := s.hintTables ++ [code_generator_info.getD []],
                componentSets := s.componentSets ++ [(component.map (fun c => [c])).getD []],
                debugInfos := s.debugInfos ++ [debug_info.getD ""] })
  else Except.error ConstructError.MalformedArgumentOrder

/-- `make_copy` (in `make_copy.py`, not in the snapshot).  Modelled from the
spec: the freeze path deep-copies the draft, so every composite field of
the copy is an independently owned cell with contents equal to the
original's at copy time. -/
def make_copy (ir : IRMap.IR) (s : Store) : IRMap.IR × Store :=
  ({ ir with arguments := s.argLists.length,
             extended_attributes := s.attrTables.length,
             code_generator_info := s.hintTables.length,
             components := s.componentSets.length,
             debug_info := s.debugInfos.length },
   { s with argLists := s.argLists ++ [s.getArg ir.arguments],
            attrTables := s.attrTables ++ [s.getAttr ir.extended_attributes],
            hintTables := s.hintTables ++ [s.getHint ir.code_generator_info],
            componentSets := s.componentSets ++ [s.getComp ir.components],
            debugInfos := s.debugInfos ++ [s.getDbg ir.debug_info] })

/-- The `CodeGeneratorInfo(...)` constructor (in `code_generator_info.py`,
not in the snapshot).  Modelled from the spec: the generator-hint table is
re-wrapped into a dedicated value at construction time — a fresh cell with
the same contents. -/
def CodeGeneratorInfo.make (r : Nat) (s : Store) : Nat × Store :=
  (s.hintTables.length, { s with hintTables := s.hintTables ++ [s.getHint r] })

/-- Errors raised by the freeze protocol. -/
inductive FreezeError where
  | KindMismatch
deriving DecidableEq, Repr

/-- The frozen callback-function declaration: identifier, callable payload
and the four trait slots, with composite fields as store references. -/
structure CallbackFunction where
  identifier : String
  arguments : Nat
  return_type : IdlType
  extended_attributes : Nat
  code_generator_info : Nat
  components : Nat
  debug_info : Nat
deriving DecidableEq, Repr

/-- `CallbackFunction.__init__` (source lines 44–54): assert the input is a
callback-function draft (kind-tag dispatch per the spec's KindMismatch),
deep-copy it via `make_copy`, then attach the copied fields — re-wrapping
only the code generator info through the `CodeGeneratorInfo` constructor. -/
def CallbackFunction.init (ir : IRMap.IR) (s : Store) :
    Except FreezeError (CallbackFunction × Store) :=
  if ir.kind = IRMap.IR.Kind.CALLBACK_FUNCTION then
    let p := make_copy ir s
    let q := CodeGeneratorInfo.make p.1.code_generator_info p.2
    Except.ok
      ({ identifier := p.1.identifier,
         arguments := p.1.arguments,
         return_type := p.1.return_type,
         extended_attributes := p.1.extended_attributes,
         code_generator_info := q.1,
         components := p.1.components,
         debug_info := p.1.debug_info }, q.2)
  else Except.error FreezeError.KindMismatch

/-- `CallbackFunction.is_callback_function` (source lines 56–59). -/
def CallbackFunction.is_callback_function (_ : CallbackFunction) : Bool := true

/-- Observable annotation values of a frozen declaration. -/
def CallbackFunction.attrValues (cf : CallbackFunction) (s : Store) : List AttrEntry :=
  s.getAttr cf.extended_attributes

/-- Observable argument list of a frozen declaration. -/
def CallbackFunction.argValues (cf : CallbackFunction) (s : Store) : List Argument :=
  s.getArg cf.arguments

/-- Observable generator-hint values of a frozen declaration. -/
def CallbackFunction.hintValues (cf : CallbackFunction) (s : Store) : List HintEntry :=
  s.getHint cf.code_generator_info

/-- Observable component set of a frozen declaration. -/
def CallbackFunction.compValues (cf : CallbackFunction) (s : Store) : List String :=
  s.getComp cf.components

/-- Observable debug info of a frozen declaration. -/
def CallbackFunction.dbgValue (cf : CallbackFunction) (s : Store) : String :=
  s.getDbg cf.debug_info

/-- Arity accessor of the `FunctionLike` contract. -/
def CallbackFunction.num_of_arguments (cf : CallbackFunction) (s : Store) : Nat :=
  (cf.argValues s).length

/-- Indexed argument lookup of the `FunctionLike` contract. -/
def CallbackFunction.argumentAt (cf : CallbackFunction) (s : Store) (i : Nat) : Option Argument :=
  (cf.argValues s).get? i

/-- Observable annotation values of a draft node. -/
def IRMap.IR.attrValues (ir : IRMap.IR) (s : Store) : List AttrEntry :=
  s.getAttr ir.extended_attributes

/-- Observable argument list of a draft node. -/
def IRMap.IR.argValues (ir : IRMap.IR) (s : Store) : List Argument :=
  s.getArg ir.arguments

/-- Observable generator-hint values of a draft node. -/
def IRMap.IR.hintValues (ir : IRMap.IR) (s : Store) : List HintEntry :=
  s.getHint ir.code_generator_info

/-- Observable component set of a draft node. -/
def IRMap.IR.compValues (ir : IRMap.IR) (s : Store) : List String :=
  s.getComp ir.components

/-- Observable debug info of a draft node. -/
def IRMap.IR.dbgValue (ir : IRMap.IR) (s : Store) : String :=
  s.getDbg ir.debug_info

/-- A draft is well formed in a store when all its references are to
allocated cells. -/
def IRMap.IR.WF (ir : IRMap.IR) (s : Store) : Prop :=
  ir.arguments < s.argLists.length ∧
  ir.extended_attributes < s.attrTables.length ∧
  ir.code_generator_info < s.hintTables.length ∧
  ir.components < s.componentSets.length ∧
  ir.debug_info < s.debugInfos.length

instance (ir : IRMap.IR) (s : Store) : Decidable (ir.WF s) := by
  unfold IRMap.IR.WF
  infer_instance

/-- Mutation of a draft's composite fields after a freeze: overwrite, in
place, the cells the draft references for its annotation table, argument
list and generator-hint table. -/
def mutateDraft (s : Store) (ir : IRMap.IR) (na : List AttrEntry)
    (nr : List Argument) (nh : List HintEntry) : Store :=
  ((s.setAttr ir.extended_attributes na).setArg ir.arguments nr).setHint
    ir.code_generator_info nh

/-- Errors raised by the draft registry. -/
inductive RegistryError where
  | DuplicateKindConflict
  | NotFound
deriving DecidableEq, Repr

/-- Modelled from the spec: a parser fragment — identifier, declared kind
tag, and raw kind-specific payload. -/
structure Fragment where
  identifier : String
  kind : IRMap.IR.Kind
  payload : List String
deriving DecidableEq, Repr

/-- Modelled from the spec: a registry draft entry accumulating the merged
fragment payloads for one identifier. -/
structure Draft where
  identifier : String
  kind : IRMap.IR.Kind
  payload : List String
deriving DecidableEq, Repr

/-- The draft registry, keyed by identifier. -/
abbrev Registry := List (String × Draft)

/-- The registry's entry for an identifier, when present. -/
def findDraft (r : Registry) (id : String) : Option Draft :=
  (r.find? (fun p => p.1 = id)).map (fun p => p.2)

/-- Modelled from the spec (`ir_map.py` is not in the snapshot):
`register(fragment)` creates a draft if none exists for the identifier,
else merges the fragment into the existing draft; it fails with
`DuplicateKindConflict` if the existing draft's kind tag differs from the
fragment's declared kind. -/
def register (r : Registry) (f : Fragment) : Except RegistryError Registry :=
  match findDraft r f.identifier with
  | none =>
      Except.ok (r ++ [(f.identifier,
        { identifier := f.identifier, kind := f.kind, payload := f.payload })])
  | some d =>
      if d.kind = f.kind then
        Except.ok (r.map (fun p =>
          if p.1 = f.identifier then (p.1, { d with payload := d.payload ++ f.payload })
          else p))
      else Except.error RegistryError.DuplicateKindConflict

/-- Modelled from the spec: `lookup(identifier)` returns the draft node or
fails with `NotFound`. -/
def lookup (r : Registry) (id : String) : Except RegistryError Draft :=
  match findDraft r id with
  | some d => Except.ok d
  | none => Except.error RegistryError.NotFound

/-- Modelled from the spec: `kindOf(identifier)` returns the kind tag
without exposing the payload. -/
def kindOf (r : Registry) (id : String) : Except RegistryError IRMap.IR.Kind :=
  match findDraft r id with
  | some d => Except.ok d.kind
  | none => Except.error RegistryError.NotFound

/-- An argument is required: not optional, no default value, not variadic. -/
def isRequiredArg (a : Argument) : Bool :=
  !a.optional && a.defaultValue.isNone && !a.variadic

/-- Some optional argument precedes some required argument. -/
def hasOptionalBeforeRequired (args : List Argument) : Prop :=
  ∃ i j : Fin args.length, (i : Nat) < (j : Nat) ∧
    (args.get i).optional = true ∧ isRequiredArg (args.get j) = true

/-- Some variadic argument is not in the last position. -/
def hasMisplacedVariadic (args : List Argument) : Prop :=
  ∃ i : Fin args.length, (args.get i).variadic = true ∧ (i : Nat) + 1 ≠ args.length

instance (args : List Argument) : Decidable (hasOptionalBeforeRequired args) := by
  unfold hasOptionalBeforeRequired
  infer_instance

instance (args : List Argument) : Decidable (hasMisplacedVariadic args) := by
  unfold hasMisplacedVariadic
  infer_instance

/-- A required argument named `item` of declared type `any`. -/
def argItem : Argument :=
  { name := "item", type := IdlType.any, optional := false, defaultValue := none,
    variadic := false }

/-- An optional argument named `a`. -/
def argOptA : Argument :=
  { name := "a", type := IdlType.any, optional := true, defaultValue := none,
    variadic := false }

/-- A required argument named `b`. -/
def argReqB : Argument :=
  { name := "b", type := IdlType.boolean, optional := false, defaultValue := none,
    variadic := false }

/-- Store produced by registering one single-argument draft in the empty
store, with all four traits left to their neutral instances. -/
def storeA : Store :=
  { attrTables := [[]], argLists := [[argItem]], hintTables := [[]],
    componentSets := [[]], debugInfos := [""] }

/-- The `"Predicate"` draft node of the end-to-end scenario. -/
def predicateDraft : IRMap.IR :=
  { identifier := "Predicate", kind := IRMap.IR.Kind.CALLBACK_FUNCTION, arguments := 0,
    return_type := IdlType.boolean, extended_attributes := 0, code_generator_info := 0,
    components := 0, debug_info := 0 }

/-- The frozen `"Predicate"` declaration of the end-to-end scenario. -/
def predicateFrozen : CallbackFunction :=
  { identifier := "Predicate", arguments := 1, return_type := IdlType.boolean,
    extended_attributes := 1, code_generator_info := 2, components := 1, debug_info := 1 }

/-- Store after freezing the `"Predicate"` draft from `storeA`. -/
def predicateStoreF : Store :=
  { attrTables := [[], []], argLists := [[argItem], [argItem]],
    hintTables := [[], [], []], componentSets := [[], []], debugInfos := ["", ""] }

/-- A concrete well-formed callback-function draft with populated traits. -/
def cbDraft : IRMap.IR :=
  { identifier := "f", kind := IRMap.IR.Kind.CALLBACK_FUNCTION, arguments := 0,
    return_type := IdlType.boolean, extended_attributes := 0, code_generator_info := 0,
    components := 0, debug_info := 0 }

/-- Store in which `cbDraft` lives, with non-empty trait cells. -/
def cbStore : Store :=
  { attrTables := [[("Exposed", "Window")]], argLists := [[argItem]],
    hintTables := [[("use_counter", "Yes")]], componentSets := [["core"]],
    debugInfos := ["a.idl:1"] }

/-- The frozen declaration obtained by freezing `cbDraft` in `cbStore`. -/
def cbFrozen : CallbackFunction :=
  { identifier := "f", arguments := 1, return_type := IdlType.boolean,
    extended_attributes := 1, code_generator_info := 2, components := 1, debug_info := 1 }

/-- Store after freezing `cbDraft` in `cbStore`. -/
def cbStoreF : Store :=
  { attrTables := [[("Exposed", "Window")], [("Exposed", "Window")]],
    argLists := [[argItem], [argItem]],
    hintTables := [[("use_counter", "Yes")], [("use_counter", "Yes")], [("use_counter", "Yes")]],
    componentSets := [["core"], ["core"]],
    debugInfos := ["a.idl:1", "a.idl:1"] }

/-- The frozen declaration of the second freeze of `cbDraft`, after the
draft's composite cells were overwritten. -/
def cbFrozen2 : CallbackFunction :=
  { identifier := "f", arguments := 2, return_type := IdlType.boolean,
    extended_attributes := 2, code_generator_info := 4, components := 2, debug_info := 2 }

/-- Store after mutating `cbDraft`'s cells in `cbStoreF` and freezing a
second time. -/
def cbStore2F : Store :=
  { attrTables := [[("M", "1")], [("Exposed", "Window")], [("M", "1")]],
    argLists := [[argOptA], [argItem], [argOptA]],
    hintTables := [[("g", "2")], [("use_counter", "Yes")], [("use_counter", "Yes")],
      [("g", "2")], [("g", "2")]],
    componentSets := [["core"], ["core"], ["core"]],
    debugInfos := ["a.idl:1", "a.idl:1", "a.idl:1"] }

/-- A draft whose kind tag is `DICTIONARY`. -/
def dictDraft : IRMap.IR :=
  { identifier := "D", kind := IRMap.IR.Kind.DICTIONARY, arguments := 0,
    return_type := IdlType.undefined, extended_attributes := 0, code_generator_info := 0,
    components := 0, debug_info := 0 }

/-- Draft node produced by a trait-omitting construction: all trait
references point at freshly allocated neutral cells. -/
def defaultsNode (identifier : String) (return_type : IdlType) (s : Store) : IRMap.IR :=
  { identifier := identifier, kind := IRMap.IR.Kind.CALLBACK_FUNCTION,
    arguments := s.argLists.length, return_type := return_type,
    extended_attributes := s.attrTables.length, code_generator_info := s.hintTables.length,
    components := s.componentSets.length, debug_info := s.debugInfos.length }

/-- Store produced by a trait-omitting construction: the argument list plus
one neutral cell per trait. -/
def defaultsStore (arguments : List Argument) (s : Store) : Store :=
  { s with argLists := s.argLists ++ [arguments],
           attrTables := s.attrTables ++ [[]],
           hintTables := s.hintTables ++ [[]],
           componentSets := s.componentSets ++ [[]],
           debugInfos := s.debugInfos ++ [""] }

/-- The `"Widget"` fragment declared as an interface. -/
def fragW1 : Fragment :=
  { identifier := "Widget", kind := IRMap.IR.Kind.INTERFACE, payload := ["members1"] }

/-- The `"Widget"` fragment declared as a dictionary. -/
def fragW2 : Fragment :=
  { identifier := "Widget", kind := IRMap.IR.Kind.DICTIONARY, payload := ["members2"] }

/-- The registry holding the first-registered `"Widget"` draft. -/
def regW : Registry :=
  [("Widget", { identifier := "Widget", kind := IRMap.IR.Kind.INTERFACE,
                payload := ["members1"] })]

/-- Reading past a `set` at a different index is unchanged. -/
theorem getD_set_ne {α : Type} (l : List α) (i j : Nat) (x d : α) (h : i ≠ j) :
    (l.set i x).getD j d = l.getD j d := by
  rw [List.getD_eq_getD_get?, List.getD_eq_getD_get?, List.get?_eq_getElem?,
    List.get?_eq_getElem?, List.getElem?_set_ne h]

/-- Reading a `set` cell back yields the written value. -/
theorem getD_set_self {α : Type} (l : List α) (i : Nat) (x d : α) (h : i < l.length) :
    (l.set i x).getD i d = x := by
  rw [List.getD_eq_getD_get?, List.get?_eq_getElem?, List.getElem?_set_self h]
  rfl

/-- Reading below the old length is unchanged by appending. -/
theorem getD_append_lt {α : Type} (l l2 : List α) (i : Nat) (d : α) (h : i < l.length) :
    (l ++ l2).getD i d = l.getD i d :=
  List.getD_append _ _ _ _ h

/-- Reading a freshly appended cell yields its contents. -/
theorem getD_append_len {α : Type} (l l2 : List α) (x d : α) :
    (l ++ x :: l2).getD l.length d = x := by
  rw [List.getD_append_right _ _ _ _ (Nat.le_refl _)]
  simp

/-- Reading the second of two freshly appended cells yields its contents. -/
theorem getD_append_len_succ {α : Type} (l : List α) (x y d : α) :
    (l ++ [x, y]).getD (l.length + 1) d = y := by
  rw [List.getD_append_right _ _ _ _ (by omega)]
  simp

/-- Closed form of a successful freeze: the frozen declaration references
the freshly allocated copies (the hint cell twice re-allocated: once by the
deep copy, once by the `CodeGeneratorInfo` re-wrap), and the store grows by
exactly those cells. -/
theorem CallbackFunction.init_eq (ir : IRMap.IR) (s : Store)
    (hk : ir.kind = IRMap.IR.Kind.CALLBACK_FUNCTION) :
    CallbackFunction.init ir s = Except.ok
      ({ identifier := ir.identifier,
         arguments := s.argLists.length,
         return_type := ir.return_type,
         extended_attributes := s.attrTables.length,
         code_generator_info := s.hintTables.length + 1,
         components := s.componentSets.length,
         debug_info := s.debugInfos.length },
       { attrTables := s.attrTables ++ [s.getAttr ir.extended_attributes],
         argLists := s.argLists ++ [s.getArg ir.arguments],
         hintTables :=
           s.hintTables ++ [s.getHint ir.code_generator_info, s.getHint ir.code_generator_info],
         componentSets := s.componentSets ++ [s.getComp ir.components],
         debugInfos := s.debugInfos ++ [s.getDbg ir.debug_info] }) := by
  simp only [CallbackFunction.init, hk, if_true, reduceIte, make_copy, CodeGeneratorInfo.make]
  rw [Except.ok.injEq, Prod.mk.injEq]
  constructor
  · simp
  · show Store.mk _ _ _ _ _ = Store.mk _ _ _ _ _
    have hc : (s.hintTables ++ [s.getHint ir.code_generator_info]).getD
        s.hintTables.length [] = s.getHint ir.code_generator_info :=
      getD_append_len _ _ _ _
    simp only [Store.getHint] at hc
    simp [Store.getHint, hc]

/-- C3: for a draft IR created with identifier "Predicate", kind
CALLBACK_FUNCTION, one required argument named "item" of type any, return
type boolean and no annotations, the frozen declaration satisfies:
identifier "Predicate", callback-function kind predicate true, argument
count 1, argument 0 named "item" and not optional, return type boolean. -/
theorem predicate_end_to_end :
    CallbackFunction.IR.init "Predicate" [argItem] IdlType.boolean none none none none
      emptyStore = Except.ok (predicateDraft, storeA) ∧
    CallbackFunction.init predicateDraft storeA =
      Except.ok (predicateFrozen, predicateStoreF) ∧
    predicateFrozen.identifier = "Predicate" ∧
    predicateFrozen.is_callback_function = true ∧
    predicateFrozen.num_of_arguments predicateStoreF = 1 ∧
    (predicateFrozen.argumentAt predicateStoreF 0).map Argument.name = some "item" ∧
    (predicateFrozen.argumentAt predicateStoreF 0).map Argument.optional = some false ∧
    predicateFrozen.return_type = IdlType.boolean := by
  refine ⟨rfl, rfl, rfl, rfl, rfl, rfl, rfl, rfl⟩

/-- C4: freezing a draft whose kind tag is not CALLBACK_FUNCTION fails
with KindMismatch before any frozen object is produced; the input is never
silently coerced. -/
theorem freeze_kind_mismatch_fails (ir : IRMap.IR) (s : Store)
    (h : ir.kind ≠ IRMap.IR.Kind.CALLBACK_FUNCTION) :
    CallbackFunction.init ir s = Except.error FreezeError.KindMismatch := by
  unfold CallbackFunction.init
  rw [if_neg h]

theorem freeze_kind_mismatch_fails_witness :
    CallbackFunction.init dictDraft emptyStore = Except.error FreezeError.KindMismatch :=
  freeze_kind_mismatch_fails dictDraft emptyStore (by decide)

/-- C5: a callback-function draft's kind tag is set to CALLBACK_FUNCTION
at creation regardless of the constructor inputs, and the deep copy taken
by the freeze path preserves it; no operation reassigns it (the node is a
value whose kind field no operation writes). -/
theorem kind_tag_immutable (identifier : String) (arguments : List Argument)
    (return_type : IdlType) (ea : Option (List AttrEntry)) (cg : Option (List HintEntry))
    (co : Option String) (db : Option String) (s t : Store) (ir : IRMap.IR) (s2 : Store)
    (h : CallbackFunction.IR.init identifier arguments return_type ea cg co db s =
      Except.ok (ir, s2)) :
    ir.kind = IRMap.IR.Kind.CALLBACK_FUNCTION ∧
    ((make_copy ir t).1).kind = IRMap.IR.Kind.CALLBACK_FUNCTION := by
  unfold CallbackFunction.IR.init at h
  by_cases ho : argOrderOk arguments
  · rw [if_pos ho] at h
    injection h with h
    injection h with h1 h2
    subst h1
    exact ⟨rfl, rfl⟩
  · rw [if_neg ho] at h
    exact Except.noConfusion h

theorem kind_tag_immutable_witness :
    cbDraft.kind = IRMap.IR.Kind.CALLBACK_FUNCTION ∧
    ((make_copy cbDraft cbStore).1).kind = IRMap.IR.Kind.CALLBACK_FUNCTION :=
  kind_tag_immutable "f" [argItem] IdlType.boolean none none none none emptyStore cbStore
    cbDraft storeA rfl

/-- C9: the freeze path leaves the draft itself unchanged — every
store-observable field of the draft (annotation table, argument list,
generator-hint table, component set, debug info) is equal before and after
the construction; the scalar fields live in the node value, which the
construction does not modify. -/
theorem freeze_preserves_draft (ir : IRMap.IR) (s : Store) (cf : CallbackFunction)
    (s2 : Store) (hwf : ir.WF s)
    (h : CallbackFunction.init ir s = Except.ok (cf, s2)) :
    ir.attrValues s2 = ir.attrValues s ∧
    ir.argValues s2 = ir.argValues s ∧
    ir.hintValues s2 = ir.hintValues s ∧
    ir.compValues s2 = ir.compValues s ∧
    ir.dbgValue s2 = ir.dbgValue s := by
  have hk : ir.kind = IRMap.IR.Kind.CALLBACK_FUNCTION := by
    by_contra hk
    unfold CallbackFunction.init at h
    rw [if_neg hk] at h
    exact Except.noConfusion h
  rw [CallbackFunction.init_eq ir s hk] at h
  injection h with h
  injection h with h1 h2
  subst h2
  obtain ⟨hargs, hattr, hhint, hcomp, hdbg⟩ := hwf
  refine ⟨?_, ?_, ?_, ?_, ?_⟩
  · exact getD_append_lt _ _ _ _ hattr
  · exact getD_append_lt _ _ _ _ hargs
  · exact getD_append_lt _ _ _ _ hhint
  · exact getD_append_lt _ _ _ _ hcomp
  · exact getD_append_lt _ _ _ _ hdbg

theorem freeze_preserves_draft_witness :
    cbDraft.attrValues cbStoreF = cbDraft.attrValues cbStore ∧
    cbDraft.argValues cbStoreF = cbDraft.argValues cbStore ∧
    cbDraft.hintValues cbStoreF = cbDraft.hintValues cbStore ∧
    cbDraft.compValues cbStoreF = cbDraft.compValues cbStore ∧
    cbDraft.dbgValue cbStoreF = cbDraft.dbgValue cbStore :=
  freeze_preserves_draft cbDraft cbStore cbFrozen cbStoreF (by decide) rfl

/-- C10: the freeze construction re-wraps exactly one trait — the frozen
object's code generator info is a newly constructed value (a fresh cell)
whose contents are built from the copied draft value, while the extended
attributes, arguments, components and debug info of the frozen object are
the deep-copied cells attached without re-wrapping. -/
theorem freeze_rewraps_only_codegen_info (ir : IRMap.IR) (s : Store)
    (cf : CallbackFunction) (s2 : Store)
    (h : CallbackFunction.init ir s = Except.ok (cf, s2)) :
    cf.extended_attributes = ((make_copy ir s).1).extended_attributes ∧
    cf.arguments = ((make_copy ir s).1).arguments ∧
    cf.components = ((make_copy ir s).1).components ∧
    cf.debug_info = ((make_copy ir s).1).debug_info ∧
    cf.code_generator_info ≠ ((make_copy ir s).1).code_generator_info ∧
    s2.getHint cf.code_generator_info =
      ((make_copy ir s).2).getHint (((make_copy ir s).1).code_generator_info) := by
  have hk : ir.kind = IRMap.IR.Kind.CALLBACK_FUNCTION := by
    by_contra hk
    unfold CallbackFunction.init at h
    rw [if_neg hk] at h
    exact Except.noConfusion h
  rw [CallbackFunction.init_eq ir s hk] at h
  injection h with h
  injection h with h1 h2
  subst h1
  subst h2
  refine ⟨rfl, rfl, rfl, rfl, by simp [make_copy], ?_⟩
  show (s.hintTables ++
      [s.getHint ir.code_generator_info, s.getHint ir.code_generator_info]).getD
      (s.hintTables.length + 1) [] =
    ((make_copy ir s).2).getHint (((make_copy ir s).1).code_generator_info)
  rw [getD_append_len_succ]
  show s.getHint ir.code_generator_info =
    (s.hintTables ++ [s.getHint ir.code_generator_info]).getD s.hintTables.length []
  rw [getD_append_len]

theorem freeze_rewraps_only_codegen_info_witness :
    cbFrozen.extended_attributes = ((make_copy cbDraft cbStore).1).extended_attributes ∧
    cbFrozen.arguments = ((make_copy cbDraft cbStore).1).arguments ∧
    cbFrozen.components = ((make_copy cbDraft cbStore).1).components ∧
    cbFrozen.debug_info = ((make_copy cbDraft cbStore).1).debug_info ∧
    cbFrozen.code_generator_info ≠ ((make_copy cbDraft cbStore).1).code_generator_info ∧
    cbStoreF.getHint cbFrozen.code_generator_info =
      ((make_copy cbDraft cbStore).2).getHint
        (((make_copy cbDraft cbStore).1).code_generator_info) :=
  freeze_rewraps_only_codegen_info cbDraft cbStore cbFrozen cbStoreF rfl

/-- C8 counterexample: with an optional argument preceding a required one
the trait-omitting construction does not succeed, refuting the claim's
universal quantification over argument lists. -/
theorem trait_defaults_counterexample :
    CallbackFunction.IR.init "f" [argOptA, argReqB] IdlType.boolean none none none none
      emptyStore = Except.error ConstructError.MalformedArgumentOrder := rfl

/-- C8 (amended): for every identifier, return type, and argument list in
valid order, constructing a callback-function draft IR with all four trait
arguments omitted succeeds, and each capability trait is initialised to
its neutral/empty instance. -/
theorem trait_defaults_neutral (identifier : String) (arguments : List Argument)
    (return_type : IdlType) (s : Store) (ho : argOrderOk arguments = true) :
    CallbackFunction.IR.init identifier arguments return_type none none none none s =
      Except.ok (defaultsNode identifier return_type s, defaultsStore arguments s) ∧
    (defaultsNode identifier return_type s).attrValues (defaultsStore arguments s) = [] ∧
    (defaultsNode identifier return_type s).hintValues (defaultsStore arguments s) = [] ∧
    (defaultsNode identifier return_type s).compValues (defaultsStore arguments s) = [] ∧
    (defaultsNode identifier return_type s).dbgValue (defaultsStore arguments s) = "" := by
  refine ⟨?_, ?_, ?_, ?_, ?_⟩
  · unfold CallbackFunction.IR.init
    rw [if_pos ho]
    rfl
  · exact getD_append_len _ _ _ _
  · exact getD_append_len _ _ _ _
  · exact getD_append_len _ _ _ _
  · exact getD_append_len _ _ _ _

theorem trait_defaults_neutral_witness :
    CallbackFunction.IR.init "g" [argItem] IdlType.boolean none none none none emptyStore =
      Except.ok (defaultsNode "g" IdlType.boolean emptyStore,
        defaultsStore [argItem] emptyStore) ∧
    (defaultsNode "g" IdlType.boolean emptyStore).attrValues
      (defaultsStore [argItem] emptyStore) = [] ∧
    (defaultsNode "g" IdlType.boolean emptyStore).hintValues
      (defaultsStore [argItem] emptyStore) = [] ∧
    (defaultsNode "g" IdlType.boolean emptyStore).compValues
      (defaultsStore [argItem] emptyStore) = [] ∧
    (defaultsNode "g" IdlType.boolean emptyStore).dbgValue
      (defaultsStore [argItem] emptyStore) = "" :=
  trait_defaults_neutral "g" [argItem] IdlType.boolean emptyStore rfl

/-- C1: freezing a draft yields a frozen object whose composite fields are
independently owned copies — overwriting the draft's annotation table,
argument list and generator-hint cells after the freeze leaves the frozen
object's observable annotation values (hence their count), arguments and
hints unchanged. -/
theorem freeze_is_non_aliasing (ir : IRMap.IR) (s : Store) (cf : CallbackFunction)
    (s2 : Store) (hwf : ir.WF s)
    (h : CallbackFunction.init ir s = Except.ok (cf, s2))
    (na : List AttrEntry) (nr : List Argument) (nh : List HintEntry) :
    cf.attrValues (mutateDraft s2 ir na nr nh) = cf.attrValues s2 ∧
    (cf.attrValues (mutateDraft s2 ir na nr nh)).length = (cf.attrValues s2).length ∧
    cf.argValues (mutateDraft s2 ir na nr nh) = cf.argValues s2 ∧
    cf.hintValues (mutateDraft s2 ir na nr nh) = cf.hintValues s2 := by
  have hk : ir.kind = IRMap.IR.Kind.CALLBACK_FUNCTION := by
    by_contra hk
    unfold CallbackFunction.init at h
    rw [if_neg hk] at h
    exact Except.noConfusion h
  rw [CallbackFunction.init_eq ir s hk] at h
  injection h with h
  injection h with h1 h2
  subst h1
  subst h2
  obtain ⟨hargs, hattr, hhint, hcomp, hdbg⟩ := hwf
  simp only [mutateDraft, Store.setAttr, Store.setArg, Store.setHint,
    CallbackFunction.attrValues, CallbackFunction.argValues, CallbackFunction.hintValues,
    Store.getAttr, Store.getArg, Store.getHint]
  have hA := getD_set_ne (s.attrTables ++ [s.attrTables.getD ir.extended_attributes []])
    ir.extended_attributes s.attrTables.length na [] (Nat.ne_of_lt hattr)
  refine ⟨hA, by rw [hA], ?_, ?_⟩
  · exact getD_set_ne _ _ _ _ _ (Nat.ne_of_lt hargs)
  · exact getD_set_ne _ _ _ _ _ (by omega)

theorem freeze_is_non_aliasing_witness :
    cbFrozen.attrValues (mutateDraft cbStoreF cbDraft [("M", "1")] [argOptA] [("g", "2")]) =
      cbFrozen.attrValues cbStoreF ∧
    (cbFrozen.attrValues
        (mutateDraft cbStoreF cbDraft [("M", "1")] [argOptA] [("g", "2")])).length =
      (cbFrozen.attrValues cbStoreF).length ∧
    cbFrozen.argValues (mutateDraft cbStoreF cbDraft [("M", "1")] [argOptA] [("g", "2")]) =
      cbFrozen.argValues cbStoreF ∧
    cbFrozen.hintValues (mutateDraft cbStoreF cbDraft [("M", "1")] [argOptA] [("g", "2")]) =
      cbFrozen.hintValues cbStoreF :=
  freeze_is_non_aliasing cbDraft cbStore cbFrozen cbStoreF (by decide) rfl
    [("M", "1")] [argOptA] [("g", "2")]

/-- C2: freezing the same draft twice produces two independent frozen
objects — a mutation of the draft's composite cells between the freezes is
observed by the second frozen object and never by the first. -/
theorem freeze_twice_independent (ir : IRMap.IR) (s : Store) (cf1 : CallbackFunction)
    (s1 : Store) (na : List AttrEntry) (nr : List Argument) (nh : List HintEntry)
    (cf2 : CallbackFunction) (s2 : Store) (hwf : ir.WF s)
    (h1 : CallbackFunction.init ir s = Except.ok (cf1, s1))
    (h2 : CallbackFunction.init ir (mutateDraft s1 ir na nr nh) = Except.ok (cf2, s2)) :
    (cf2.attrValues s2 = na ∧ cf2.argValues s2 = nr ∧ cf2.hintValues s2 = nh) ∧
    (cf1.attrValues s2 = cf1.attrValues s1 ∧ cf1.argValues s2 = cf1.argValues s1 ∧
      cf1.hintValues s2 = cf1.hintValues s1) := by
  have hk : ir.kind = IRMap.IR.Kind.CALLBACK_FUNCTION := by
    by_contra hk
    unfold CallbackFunction.init at h1
    rw [if_neg hk] at h1
    exact Except.noConfusion h1
  rw [CallbackFunction.init_eq ir s hk] at h1
  injection h1 with h1
  injection h1 with h11 h12
  subst h11
  subst h12
  rw [CallbackFunction.init_eq ir _ hk] at h2
  injection h2 with h2
  injection h2 with h21 h22
  subst h21
  subst h22
  obtain ⟨hargs, hattr, hhint, hcomp, hdbg⟩ := hwf
  simp only [mutateDraft, Store.setAttr, Store.setArg, Store.setHint,
    CallbackFunction.attrValues, CallbackFunction.argValues, CallbackFunction.hintValues,
    Store.getAttr, Store.getArg, Store.getHint]
  constructor
  · refine ⟨?_, ?_, ?_⟩
    · rw [getD_append_len]
      exact getD_set_self _ _ _ _ (by simp only [List.length_append]; omega)
    · rw [getD_append_len]
      exact getD_set_self _ _ _ _ (by simp only [List.length_append]; omega)
    · rw [getD_append_len_succ]
      exact getD_set_self _ _ _ _ (by simp only [List.length_append]; omega)
  · refine ⟨?_, ?_, ?_⟩
    · rw [getD_append_lt _ _ _ _ (by simp only [List.length_set, List.length_append,
          List.length_cons, List.length_nil]; omega),
        getD_set_ne _ _ _ _ _ (by omega)]
    · rw [getD_append_lt _ _ _ _ (by simp only [List.length_set, List.length_append,
          List.length_cons, List.length_nil]; omega),
        getD_set_ne _ _ _ _ _ (by omega)]
    · rw [getD_append_lt _ _ _ _ (by simp only [List.length_set, List.length_append,
          List.length_cons, List.length_nil]; omega),
        getD_set_ne _ _ _ _ _ (by omega)]

theorem freeze_twice_independent_witness :
    (cbFrozen2.attrValues cbStore2F = [("M", "1")] ∧
      cbFrozen2.argValues cbStore2F = [argOptA] ∧
      cbFrozen2.hintValues cbStore2F = [("g", "2")]) ∧
    (cbFrozen.attrValues cbStore2F = cbFrozen.attrValues cbStoreF ∧
      cbFrozen.argValues cbStore2F = cbFrozen.argValues cbStoreF ∧
      cbFrozen.hintValues cbStore2F = cbFrozen.hintValues cbStoreF) :=
  freeze_twice_independent cbDraft cbStore cbFrozen cbStoreF [("M", "1")] [argOptA]
    [("g", "2")] cbFrozen2 cbStore2F (by decide) rfl rfl

/-- Soundness of the optional-before-required check: when it passes, every
argument after an optional one is omissible. -/
theorem noOpt_spec : ∀ (args : List Argument), noOptBeforeReq args = true →
    ∀ i j a b, i < j → args.get? i = some a → args.get? j = some b →
      a.optional = true → argIsOptionalLike b = true := by
  intro args
  induction args with
  | nil =>
      intro _ i j a b hij hi hj hopt
      rw [List.get?_nil] at hi
      exact Option.noConfusion hi
  | cons a0 rest ih =>
      intro h i j a b hij hi hj hopt
      unfold noOptBeforeReq at h
      by_cases h0 : (a0.optional || a0.defaultValue.isSome) = true
      · rw [if_pos h0] at h
        cases j with
        | zero => omega
        | succ m =>
            rw [List.get?_cons_succ] at hj
            exact List.all_eq_true.mp h b (List.get?_mem hj)
      · rw [if_neg h0] at h
        cases i with
        | zero =>
            rw [List.get?_cons_zero] at hi
            injection hi with hi
            subst hi
            simp only [Bool.or_eq_true, not_or, Bool.not_eq_true] at h0
            rw [h0.1] at hopt
            exact Bool.noConfusion hopt
        | succ k =>
            cases j with
            | zero => omega
            | succ m =>
                rw [List.get?_cons_succ] at hi hj
                exact ih h k m a b (by omega) hi hj hopt

/-- Soundness of the variadic-placement check: when it passes, any
variadic argument sits in the last position. -/
theorem variadic_spec : ∀ (args : List Argument), variadicLastOnly args = true →
    ∀ i a, args.get? i = some a → a.variadic = true → i + 1 = args.length := by
  intro args
  induction args with
  | nil =>
      intro _ i a hi _
      rw [List.get?_nil] at hi
      exact Option.noConfusion hi
  | cons a0 rest ih =>
      intro h i a hi hv
      unfold variadicLastOnly at h
      rw [Bool.and_eq_true] at h
      obtain ⟨h1, h2⟩ := h
      cases i with
      | zero =>
          rw [List.get?_cons_zero] at hi
          injection hi with hi
          subst hi
          cases hrest : rest with
          | nil => simp
          | cons b rb =>
              rw [hrest] at h1
              simp [hv] at h1
      | succ k =>
          rw [List.get?_cons_succ] at hi
          have hk := ih h2 k a hi hv
          simp only [List.length_cons]
          omega

/-- C6: a callable draft payload with an optional argument preceding a
required one, or with a variadic argument that is not last, fails the
construction of the owning draft node with MalformedArgumentOrder, so no
frozen declaration is ever produced from it. -/
theorem malformed_argument_order_rejected (args : List Argument)
    (hbad : hasOptionalBeforeRequired args ∨ hasMisplacedVariadic args)
    (identifier : String) (return_type : IdlType) (ea : Option (List AttrEntry))
    (cg : Option (List HintEntry)) (co : Option String) (db : Option String) (s : Store) :
    CallbackFunction.IR.init identifier args return_type ea cg co db s =
      Except.error ConstructError.MalformedArgumentOrder := by
  have hfalse : argOrderOk args = false := by
    cases hb : argOrderOk args
    · rfl
    · exfalso
      have hand := hb
      unfold argOrderOk at hand
      rw [Bool.and_eq_true] at hand
      obtain ⟨hno, hvl⟩ := hand
      rcases hbad with h | h
      · obtain ⟨i, j, hij, hopt, hreq⟩ := h
        have hgi : args.get? (i : Nat) = some (args.get i) := List.get?_eq_get i.isLt
        have hgj : args.get? (j : Nat) = some (args.get j) := List.get?_eq_get j.isLt
        have hlike := noOpt_spec args hno i j (args.get i) (args.get j) hij hgi hgj hopt
        unfold isRequiredArg at hreq
        unfold argIsOptionalLike at hlike
        rw [Bool.and_eq_true, Bool.and_eq_true] at hreq
        obtain ⟨⟨hro, hrd⟩, hrv⟩ := hreq
        rw [Bool.or_eq_true, Bool.or_eq_true] at hlike
        rw [Bool.not_eq_true'] at hro hrv
        rcases hlike with (hx | hx) | hx
        · rw [hro] at hx
          exact Bool.noConfusion hx
        · rw [Option.isNone_iff_eq_none.mp hrd] at hx
          exact Bool.noConfusion hx
        · rw [hrv] at hx
          exact Bool.noConfusion hx
      · obtain ⟨i, hv, hne⟩ := h
        have hgi : args.get? (i : Nat) = some (args.get i) := List.get?_eq_get i.isLt
        exact hne (variadic_spec args hvl i (args.get i) hgi hv)
  unfold CallbackFunction.IR.init
  simp [hfalse]

theorem malformed_argument_order_rejected_witness :
    (hasOptionalBeforeRequired [argOptA, argReqB] ∨
      hasMisplacedVariadic [argOptA, argReqB]) ∧
    CallbackFunction.IR.init "f" [argOptA, argReqB] IdlType.boolean none none none none
      emptyStore = Except.error ConstructError.MalformedArgumentOrder :=
  ⟨Or.inl (by decide),
   malformed_argument_order_rejected [argOptA, argReqB] (Or.inl (by decide)) "f"
     IdlType.boolean none none none none emptyStore⟩

/-- C7: registering a second fragment that shares an identifier with an
already registered one but declares a different kind fails with
DuplicateKindConflict, and the registry's entry for that identifier still
has the kind and payload of the first-registered fragment. -/
theorem duplicate_kind_conflict_atomic (r : Registry) (f1 f2 : Fragment) (r1 : Registry)
    (hid : f2.identifier = f1.identifier) (hk : f2.kind ≠ f1.kind)
    (hfresh : findDraft r f1.identifier = none)
    (h1 : register r f1 = Except.ok r1) :
    register r1 f2 = Except.error RegistryError.DuplicateKindConflict ∧
    findDraft r1 f1.identifier =
      some { identifier := f1.identifier, kind := f1.kind, payload := f1.payload } := by
  unfold register at h1
  rw [hfresh] at h1
  injection h1 with h1
  subst h1
  have hnone : r.find? (fun p => p.1 = f1.identifier) = none := by
    cases hcase : r.find? (fun p => p.1 = f1.identifier) with
    | none => rfl
    | some p =>
        unfold findDraft at hfresh
        rw [hcase] at hfresh
        exact Option.noConfusion hfresh
  have hfind : findDraft
      (r ++ [(f1.identifier,
        { identifier := f1.identifier, kind := f1.kind, payload := f1.payload })])
      f1.identifier =
      some { identifier := f1.identifier, kind := f1.kind, payload := f1.payload } := by
    unfold findDraft
    rw [List.find?_append, hnone]
    simp
  refine ⟨?_, hfind⟩
  have hne : ¬ (f1.kind = f2.kind) := fun hh => hk (Eq.symm hh)
  unfold register
  rw [hid, hfind]
  simp [hne]

theorem duplicate_kind_conflict_atomic_witness :
    register regW fragW2 = Except.error RegistryError.DuplicateKindConflict ∧
    findDraft regW "Widget" =
      some { identifier := "Widget", kind := IRMap.IR.Kind.INTERFACE,
             payload := ["members1"] } :=
  duplicate_kind_conflict_atomic [] fragW1 fragW2 regW rfl (by decide) rfl rfl
